import Mathlib

/-!
# Verification of the nanogpt-browser client-side logic

Shallow embedding of `src/static/js/app.js` (class `ModelBrowser`) and
`src/static/js/compare.js` (class `CostComparison`).

Modelling conventions:
* JavaScript strings are Lean `String`s; `toLowerCase`, `trim` and
  `includes` are modelled by the executable functions `jsToLower`,
  `jsTrim` and `strIncludes` below (ASCII case folding, standard
  whitespace trimming, substring search).
* A JS value that may be `undefined`/`null` is an `Option`; the JS
  "falsy or" pattern `x || d` on strings is `jsOr` (absent or empty
  falls back to the default).
* Numeric pricing values are rationals (`ℚ`); `parseFloat` of a number
  is the identity.  `toLocaleString` / `toLocaleDateString` are modelled
  by plain `toString` rendering — the claims under check do not depend
  on the concrete digit grouping or date format, only on which value is
  rendered.
* `Array.prototype.sort` (stable since ES2019) with comparator `c` is
  modelled by `List.mergeSort` with the relation `c a b ≤ 0`.
* Browser `localStorage` is a partial map `String → Option String`.
-/

/-- ASCII lower-casing of one character, as `String.prototype.toLowerCase`
acts on ASCII input. -/
def charToLower (c : Char) : Char :=
  if 65 ≤ c.toNat ∧ c.toNat ≤ 90 then Char.ofNat (c.toNat + 32) else c

/-- Model of `String.prototype.toLowerCase`. -/
def jsToLower (s : String) : String :=
  ⟨s.data.map charToLower⟩

/-- Whitespace test used by `jsTrim`. -/
def isJsWhitespace (c : Char) : Bool :=
  c == ' ' || c == '\t' || c == '\n' || c == '\r'

/-- Model of `String.prototype.trim`: drop leading and trailing whitespace. -/
def jsTrim (s : String) : String :=
  ⟨((s.data.dropWhile isJsWhitespace).reverse.dropWhile isJsWhitespace).reverse⟩

/-- Does the character list `pat` occur at the head of `l`? -/
def strPrefixOf : List Char → List Char → Bool
  | [], _ => true
  | _ :: _, [] => false
  | a :: pat, b :: l => a == b && strPrefixOf pat l

/-- Does the character list `pat` occur anywhere inside `l`? -/
def strSearch (pat : List Char) : List Char → Bool
  | [] => strPrefixOf pat []
  | b :: l => strPrefixOf pat (b :: l) || strSearch pat l

/-- Model of `s.includes(pat)`: substring containment. -/
def strIncludes (s pat : String) : Bool :=
  strSearch pat.data s.data

/-- The JS pattern `x || d` for an optional string `x`: absent (`undefined`
or `null`) and the empty string are falsy and fall back to `d`. -/
def jsOr (x : Option String) (d : String) : String :=
  match x with
  | none => d
  | some s => if s = "" then d else s

/-- Model of `a.localeCompare(b)`: three-way lexicographic comparison of the
underlying character sequences. -/
def localeCompare (a b : String) : Int :=
  if a.data < b.data then -1 else if b.data < a.data then 1 else 0

namespace ModelBrowser

/-- The `pricing` object of a model as read by `formatPricing`
(`src/static/js/app.js`, lines 389–400): optional `prompt` and
`completion` prices and an optional `unit` string. -/
structure Pricing where
  prompt : Option ℚ
  completion : Option ℚ
  unit : Option String
deriving DecidableEq, Repr

/-- A model record as consumed by `app.js`: `id`, optional `name`,
optional `description`, `owned_by`, numeric `created` timestamp,
optional `context_length`, optional `pricing`, and the `cheap` flag of
the optional `cost_estimate` object. -/
structure Model where
  id : String
  name : Option String
  description : Option String
  owned_by : String
  created : Int
  context_length : Option Nat
  pricing : Option Pricing
  cost_estimate_cheap : Option Bool
deriving DecidableEq, Repr

/-- UI state of the `ModelBrowser` class: the two model lists plus the
visibility flags driven by `showLoading` / `showError` / `showEmpty`
and their `hide*` counterparts. -/
structure BrowserState where
  models : List Model
  filteredModels : List Model
  loadingVisible : Bool
  errorVisible : Bool
  errorMessage : String
  emptyVisible : Bool
deriving Repr

/-- Source function `showLoading` (app.js 402–408). -/
def showLoading (st : BrowserState) : BrowserState :=
  { st with loadingVisible := true, errorVisible := false, emptyVisible := false }

/-- Source function `hideLoading` (app.js 410–412). -/
def hideLoading (st : BrowserState) : BrowserState :=
  { st with loadingVisible := false }

/-- Source function `showError` (app.js 414–418). -/
def showError (st : BrowserState) (message : String) : BrowserState :=
  { hideLoading st with errorVisible := true, errorMessage := message }

/-- Source function `hideError` (app.js 420–422). -/
def hideError (st : BrowserState) : BrowserState :=
  { st with errorVisible := false }

/-- Source function `showEmpty` (app.js 424–427). -/
def showEmpty (st : BrowserState) : BrowserState :=
  { hideLoading st with emptyVisible := true }

/-- Source function `hideEmpty` (app.js 429–431). -/
def hideEmpty (st : BrowserState) : BrowserState :=
  { st with emptyVisible := false }

/-- Source function `getModelType` (app.js 375–387): classify a model id by substring
checks, in source order. -/
def getModelType (modelId : String) : String :=
  if strIncludes modelId "chatgpt" || strIncludes modelId "gpt" then "ChatGPT"
  else if strIncludes modelId "claude" then "Claude"
  else if strIncludes modelId "gemini" then "Gemini"
  else if strIncludes modelId "deepseek" then "DeepSeek"
  else "Other"

/-- Rendering of a rational price, abstracting `Number.prototype.toLocaleString`. -/
def numToLocale (q : ℚ) : String := toString q

/-- Rendering of a natural number, abstracting `Number.prototype.toLocaleString`. -/
def natToLocale (n : Nat) : String := toString n

/-- Rendering of a millisecond timestamp, abstracting
`new Date(ms).toLocaleDateString('en-US', ...)`. -/
def dateToLocale (ms : Int) : String := toString ms

/-- Source function `formatPricing` (app.js 389–400).  A falsy price (absent or `0`)
renders as `"0"`, a truthy one as `"$"` followed by its rendering; the
unit defaults to `"per_million_tokens"`, shown as `"per MTok"`. -/
def formatPricing (pricing : Option Pricing) : String :=
  match pricing with
  | none => "N/A"
  | some p =>
    let promptStr := match p.prompt with
      | none => "0"
      | some q => if q = 0 then "0" else "$" ++ numToLocale q
    let completionStr := match p.completion with
      | none => "0"
      | some q => if q = 0 then "0" else "$" ++ numToLocale q
    let unit := jsOr p.unit "per_million_tokens"
    if unit = "per_million_tokens" then
      promptStr ++ "/" ++ completionStr ++ " per MTok"
    else
      promptStr ++ "/" ++ completionStr ++ " " ++ unit

/-- The interpolation slots of the HTML template built by
`createModelCard` (app.js 144–195); the surrounding markup is constant. -/
structure ModelCard where
  dataModelId : String
  displayName : String
  modelTypeBadge : String
  createdDate : String
  provider : String
  contextValue : String
  pricingValue : String
deriving DecidableEq, Repr

/-- Source function `createModelCard` (app.js 144–195), restricted to the numeric
`created` branch of the date formatting (the model's `created` field is
a number in this embedding). -/
def createModelCard (m : Model) : ModelCard :=
  let createdDate := dateToLocale (m.created * 1000)
  let modelType := getModelType m.id
  let contextLength := match m.context_length with
    | some n => if n = 0 then "N/A" else natToLocale n
    | none => "N/A"
  let isCheap := if (m.cost_estimate_cheap.getD false) then "💰" else "💎"
  { dataModelId := m.id
    displayName := jsOr m.name m.id
    modelTypeBadge := modelType
    createdDate := createdDate
    provider := m.owned_by
    contextValue := contextLength ++ " tokens"
    pricingValue := isCheap ++ " " ++ formatPricing m.pricing }

/-- Source function `renderModels` (app.js 127–142): empty list shows the empty state,
otherwise the empty state and the loading state are hidden. -/
def renderModels (st : BrowserState) : BrowserState :=
  if st.filteredModels.length = 0 then
    showEmpty st
  else
    hideLoading (hideEmpty st)

/-- Source function `handleSearch` (app.js 324–344). -/
def handleSearch (st : BrowserState) (query : String) : BrowserState :=
  let searchTerm := jsTrim (jsToLower query)
  let st1 :=
    if searchTerm = "" then
      { st with filteredModels := st.models }
    else
      { st with filteredModels := st.models.filter (fun m =>
          let name := jsToLower (jsOr m.name m.id)
          let id := jsToLower m.id
          let descr := jsToLower (jsOr m.description "")
          let provider := jsToLower m.owned_by
          strIncludes name searchTerm ||
          strIncludes id searchTerm ||
          strIncludes descr searchTerm ||
          strIncludes provider searchTerm) }
  renderModels st1

/-- Source function `handleFilter` (app.js 346–357). -/
def handleFilter (st : BrowserState) (filterType : String) : BrowserState :=
  let st1 :=
    if filterType = "all" then
      { st with filteredModels := st.models }
    else
      { st with filteredModels := st.models.filter (fun m =>
          jsToLower (getModelType m.id) = filterType) }
  renderModels st1

/-- An HTTP request as issued by `fetch(path)` (no init object, hence
method GET). -/
structure Request where
  method : String
  path : String
deriving DecidableEq, Repr

/-- The JSON body answered by `GET /api/models`: `success`, an optional
`data.data` model array, and an optional `error` string. -/
structure ModelsResponse where
  success : Bool
  dataData : Option (List Model)
  error : Option String

/-- The result of a `fetch` as observed by the `try`/`catch` in
`loadModels`: either a network failure (the rejection caught by
`catch`) or a parsed JSON body. -/
inductive FetchResult (α : Type) where
  | networkError : FetchResult α
  | ok (body : α) : FetchResult α

/-- Source function `loadModels` (app.js 106–125), as a transition on the UI state given
the outcome of its single `fetch('/api/models')`; the second component
lists the requests the call issues. -/
def loadModels (st : BrowserState) (r : FetchResult ModelsResponse) :
    BrowserState × List Request :=
  let st1 := showLoading st
  let req : Request := { method := "GET", path := "/api/models" }
  match r with
  | .networkError =>
      (showError st1 "Network error. Please check your connection.", [req])
  | .ok body =>
      if body.success then
        let ms := body.dataData.getD []
        (hideError (renderModels { st1 with models := ms, filteredModels := ms }), [req])
      else
        (showError st1 (jsOr body.error "Failed to load models"), [req])

/-- The requests issued by `showModelDetails(modelId)` (app.js 207–228):
one `fetch` of `/api/models/` followed by the clicked model's id. -/
def showModelDetailsRequests (modelId : String) : List Request :=
  [{ method := "GET", path := "/api/models/" ++ modelId }]

/-! ### Settings and localStorage (app.js 442–504) -/

/-- Browser `localStorage`, as a partial map from keys to stored strings. -/
def Store : Type := String → Option String

/-- Source function `localStorage.getItem`. -/
def getItem (s : Store) (k : String) : Option String := s k

/-- Source function `localStorage.setItem`. -/
def setItem (s : Store) (k v : String) : Store :=
  fun k2 => if k2 = k then some v else s k2

/-- Source function `localStorage.removeItem`. -/
def removeItem (s : Store) (k : String) : Store :=
  fun k2 => if k2 = k then none else s k2

/-- The mask shown in place of a saved API key (32 bullet characters). -/
def maskString : String := "••••••••••••••••••••••••••••••••"

/-- Source function `saveApiKey` (app.js 454–464): store the trimmed input under
`nanogpt_api_key` when it is non-empty and not the mask, and replace the
input field by the mask; otherwise leave both unchanged.  Returns the
new store and the new input-field value. -/
def saveApiKey (s : Store) (inputValue : String) : Store × String :=
  let apiKey := jsTrim inputValue
  if apiKey ≠ "" ∧ apiKey ≠ maskString then
    (setItem s "nanogpt_api_key" apiKey, maskString)
  else
    (s, inputValue)

/-- Source function `clearApiKey` (app.js 466–470): remove `nanogpt_api_key` and clear
the input field. -/
def clearApiKey (s : Store) : Store × String :=
  (removeItem s "nanogpt_api_key", "")

/-- Source function `toggleAutoRefresh` (app.js 472–482): store the boolean, coerced to
the strings `true` / `false`, under `auto_refresh`. -/
def toggleAutoRefresh (s : Store) (enabled : Bool) : Store :=
  setItem s "auto_refresh" (if enabled then "true" else "false")

/-- Source function `loadCurrentSettings` (app.js 442–452): reads `nanogpt_api_key` (a
truthy value masks the input field) and `auto_refresh` (checked iff the
stored string is `"true"`).  Returns the new input-field value and the
checkbox state. -/
def loadCurrentSettings (s : Store) (oldInputValue : String) : String × Bool :=
  let masked := match getItem s "nanogpt_api_key" with
    | none => oldInputValue
    | some v => if v = "" then oldInputValue else maskString
  (masked, getItem s "auto_refresh" == some "true")

/-- Source function `initializeSettings` (app.js 498–504): reads only `auto_refresh`. -/
def initializeSettings (s : Store) : Bool :=
  getItem s "auto_refresh" == some "true"

end ModelBrowser

namespace CostComparison

/-- The `pricing` object of a comparison model as read by `getCostValue`
(`src/static/js/compare.js`, lines 112–118): an optional `completion`
price (`none` models both `null` and `undefined`). -/
structure CPricing where
  completion : Option ℚ
deriving DecidableEq, Repr

/-- A comparison model as consumed by `compare.js`: `id`, `name`,
`provider`, optional `pricing` and optional `context_length`. -/
structure CModel where
  id : String
  name : String
  provider : String
  pricing : Option CPricing
  context_length : Option Nat
deriving DecidableEq, Repr

/-- UI state of the `CostComparison` class. -/
structure CompareState where
  models : List CModel
  filteredModels : List CModel
  currentSort : String
  currentProviderFilter : String
  loadingVisible : Bool
  errorVisible : Bool
  errorMessage : String
  emptyVisible : Bool
  leaderboardVisible : Bool
  statCount : Nat
  statAvg : ℚ
deriving Repr

/-- Source function `getCostValue` (compare.js 112–118): `0` for a free model (absent
pricing, or `completion` absent or `0`), the completion price otherwise. -/
def getCostValue (m : CModel) : ℚ :=
  match m.pricing with
  | none => 0
  | some p =>
    match p.completion with
    | none => 0
    | some c => if c = 0 then 0 else c

/-- The comparator of `applySorting` (compare.js 95–110), switching on
the sort type; an unknown sort type compares everything equal. -/
def sortCmp (sortType : String) (a b : CModel) : ℚ :=
  if sortType = "cost" then getCostValue a - getCostValue b
  else if sortType = "cost-desc" then getCostValue b - getCostValue a
  else if sortType = "provider" then (localeCompare a.provider b.provider : ℚ)
  else if sortType = "name" then (localeCompare a.name b.name : ℚ)
  else 0

/-- Source function `applySorting` (compare.js 95–110): stable sort of `filteredModels`
by the comparator (`Array.prototype.sort` is stable; an element precedes
another exactly when the comparator is ≤ 0 on the pair). -/
def applySorting (st : CompareState) (sortType : String) : CompareState :=
  { st with filteredModels :=
      st.filteredModels.mergeSort (fun a b => decide (sortCmp sortType a b ≤ 0)) }

/-- Source function `showLoading` (compare.js 208–214). -/
def cShowLoading (st : CompareState) : CompareState :=
  { st with loadingVisible := true, errorVisible := false,
            emptyVisible := false, leaderboardVisible := false }

/-- Source function `hideLoading` (compare.js 216–218). -/
def cHideLoading (st : CompareState) : CompareState :=
  { st with loadingVisible := false }

/-- Source function `showError` (compare.js 220–224). -/
def cShowError (st : CompareState) (message : String) : CompareState :=
  { cHideLoading st with errorVisible := true, errorMessage := message }

/-- Source function `hideError` (compare.js 226–228). -/
def cHideError (st : CompareState) : CompareState :=
  { st with errorVisible := false }

/-- Source function `showEmpty` (compare.js 230–234). -/
def cShowEmpty (st : CompareState) : CompareState :=
  { cHideLoading st with emptyVisible := true, leaderboardVisible := false }

/-- Source function `hideEmpty` (compare.js 236–238). -/
def cHideEmpty (st : CompareState) : CompareState :=
  { st with emptyVisible := false }

/-- Source function `renderLeaderboard` (compare.js 144–197), restricted to its state
effects: the empty list shows the empty state, otherwise the
leaderboard becomes visible. -/
def renderLeaderboard (st : CompareState) : CompareState :=
  if st.filteredModels.length = 0 then
    cShowEmpty st
  else
    { cHideLoading (cHideEmpty st) with leaderboardVisible := true }

/-- The provider-selection step of `applyFilters` (compare.js 74–87):
note that a provider filter other than the three known values leaves
`filteredModels` untouched. -/
def selectByProvider (st : CompareState) : CompareState :=
  if st.currentProviderFilter = "all" then
    { st with filteredModels := st.models }
  else if st.currentProviderFilter = "openrouter" then
    { st with filteredModels := st.models.filter (fun m => m.provider == "openrouter") }
  else if st.currentProviderFilter = "nanogpt" then
    { st with filteredModels := st.models.filter (fun m => m.provider == "nanogpt") }
  else
    st

/-- Source function `applyFilters` (compare.js 74–87). -/
def applyFilters (st : CompareState) : CompareState :=
  renderLeaderboard (applySorting (selectByProvider st) st.currentSort)

/-- Source function `handleSort` (compare.js 89–93). -/
def handleSort (st : CompareState) (sortType : String) : CompareState :=
  renderLeaderboard (applySorting { st with currentSort := sortType } sortType)

/-- Source function `updateStats` (compare.js 199–206): statistics over the full
`models` list; the average is guarded by `totalModels > 0`. -/
def updateStats (st : CompareState) : CompareState :=
  let totalModels := st.models.length
  let totalCost := st.models.foldl (fun sum m => sum + getCostValue m) 0
  let avgCost := if totalModels > 0 then totalCost / (totalModels : ℚ) else 0
  { st with statCount := totalModels, statAvg := avgCost }

/-- The JSON body answered by `GET /api/compare/models`: `success`, the
model array assigned directly to `this.models`, and an optional `error`. -/
structure CompareResponse where
  success : Bool
  data : List CModel
  error : Option String

/-- Source function `loadComparisonData` (compare.js 53–72), as a transition on the UI
state given the outcome of its single `fetch('/api/compare/models')`;
the second component lists the requests the call issues. -/
def loadComparisonData (st : CompareState) (r : ModelBrowser.FetchResult CompareResponse) :
    CompareState × List ModelBrowser.Request :=
  let st1 := cShowLoading st
  let req : ModelBrowser.Request := { method := "GET", path := "/api/compare/models" }
  match r with
  | .networkError =>
      (cShowError st1 "Network error. Please check your connection.", [req])
  | .ok body =>
      if body.success then
        (cHideError (updateStats (applyFilters { st1 with models := body.data })), [req])
      else
        (cShowError st1 (jsOr body.error "Failed to load comparison data"), [req])

end CostComparison

/-- Every operation (method or constructor) of the two classes
`ModelBrowser` (app.js) and `CostComparison` (compare.js).  Operations
whose behaviour depends on an argument relevant to the requests they
issue carry that argument. -/
inductive Op where
  | mbConstruct : Op
  | mbInitializeElements : Op
  | mbBindEvents : Op
  | mbLoadModels : Op
  | mbRenderModels : Op
  | mbCreateModelCard : Op
  | mbBindModelCardEvents : Op
  | mbShowModelDetails (modelId : String) : Op
  | mbRenderModelDetails : Op
  | mbShowModalError : Op
  | mbHideModelModal : Op
  | mbHandleSearch (query : String) : Op
  | mbHandleFilter (filterType : String) : Op
  | mbSetView (viewType : String) : Op
  | mbGetModelType : Op
  | mbFormatPricing : Op
  | mbShowLoading : Op
  | mbHideLoading : Op
  | mbShowError : Op
  | mbHideError : Op
  | mbShowEmpty : Op
  | mbHideEmpty : Op
  | mbShowSettings : Op
  | mbHideSettings : Op
  | mbLoadCurrentSettings : Op
  | mbSaveApiKey : Op
  | mbClearApiKey : Op
  | mbToggleAutoRefresh (enabled : Bool) : Op
  | mbStartAutoRefresh : Op
  | mbStopAutoRefresh : Op
  | mbInitializeSettings : Op
  | mbShowNotification : Op
  | ccConstruct : Op
  | ccInitializeElements : Op
  | ccBindEvents : Op
  | ccLoadComparisonData : Op
  | ccApplyFilters : Op
  | ccHandleSort (sortType : String) : Op
  | ccApplySorting (sortType : String) : Op
  | ccGetCostValue : Op
  | ccGetCostCategory : Op
  | ccGetValueScore : Op
  | ccRenderLeaderboard : Op
  | ccUpdateStats : Op
  | ccShowLoading : Op
  | ccHideLoading : Op
  | ccShowError : Op
  | ccHideError : Op
  | ccShowEmpty : Op
  | ccHideEmpty : Op

/-- The network requests each operation issues, read off the source
(transitively: the constructors call `loadModels` resp.
`loadComparisonData`; each tick of the interval installed by
`startAutoRefresh` — and hence by `initializeSettings` when the stored
preference is on — runs `loadModels`).  All other operations perform no
`fetch`. -/
def opRequests : Op → List ModelBrowser.Request
  | .mbConstruct => [{ method := "GET", path := "/api/models" }]
  | .mbLoadModels => [{ method := "GET", path := "/api/models" }]
  | .mbShowModelDetails modelId => ModelBrowser.showModelDetailsRequests modelId
  | .mbStartAutoRefresh => [{ method := "GET", path := "/api/models" }]
  | .mbInitializeSettings => [{ method := "GET", path := "/api/models" }]
  | .ccConstruct => [{ method := "GET", path := "/api/compare/models" }]
  | .ccLoadComparisonData => [{ method := "GET", path := "/api/compare/models" }]
  | _ => []

/-- The three endpoints of the API the client may touch. -/
def allowedRequest (r : ModelBrowser.Request) : Prop :=
  r.method = "GET" ∧
  (r.path = "/api/models" ∨
   (∃ modelId, r.path = "/api/models/" ++ modelId) ∨
   r.path = "/api/compare/models")

/-! ### The search-input debounce (app.js 53–60)

The `input` listener clears any pending timeout and schedules
`handleSearch(e.target.value)` 300 ms later.  We model a run of input
events by their (strictly increasing) times and values; a scheduled
timer fires exactly when no further input event arrives strictly before
its deadline, and the timer scheduled by the final event always fires. -/

/-- A search-box `input` event: its arrival time in milliseconds and the
input element's value at that moment. -/
structure InputEvent where
  time : Nat
  value : String
deriving DecidableEq, Repr

/-- The values with which `handleSearch` is eventually invoked, for a
run of input events under the debounce of app.js 53–60: the timer of an
event survives exactly when the next event arrives no earlier than
300 ms later, and the last event's timer always fires. -/
def debounceFired : List InputEvent → List String
  | [] => []
  | [e] => [e.value]
  | e :: e2 :: rest =>
      (if e.time + 300 ≤ e2.time then [e.value] else []) ++ debounceFired (e2 :: rest)

/-! ### Helper lemmas -/

theorem renderModels_filteredModels (st : ModelBrowser.BrowserState) :
    (ModelBrowser.renderModels st).filteredModels = st.filteredModels := by
  unfold ModelBrowser.renderModels
  split <;>
    simp [ModelBrowser.showEmpty, ModelBrowser.hideLoading, ModelBrowser.hideEmpty]

theorem renderModels_models (st : ModelBrowser.BrowserState) :
    (ModelBrowser.renderModels st).models = st.models := by
  unfold ModelBrowser.renderModels
  split <;>
    simp [ModelBrowser.showEmpty, ModelBrowser.hideLoading, ModelBrowser.hideEmpty]

theorem renderLeaderboard_models (st : CostComparison.CompareState) :
    (CostComparison.renderLeaderboard st).models = st.models := by
  unfold CostComparison.renderLeaderboard
  split <;>
    simp [CostComparison.cShowEmpty, CostComparison.cHideLoading,
      CostComparison.cHideEmpty]

theorem applySorting_models (st : CostComparison.CompareState) (sortType : String) :
    (CostComparison.applySorting st sortType).models = st.models := rfl

theorem selectByProvider_models (st : CostComparison.CompareState) :
    (CostComparison.selectByProvider st).models = st.models := by
  unfold CostComparison.selectByProvider
  split <;> try rfl
  split <;> try rfl
  split <;> rfl

theorem localeCompare_nonpos_iff (a b : String) :
    localeCompare a b ≤ 0 ↔ a.data ≤ b.data := by
  unfold localeCompare
  rcases lt_trichotomy a.data b.data with h | h | h
  · simp [h, h.le]
  · simp [h]
  · simp [lt_asymm h, h, not_le.mpr h]

theorem pairwise_of_all_true {α : Type} (le : α → α → Bool)
    (h : ∀ a b, le a b = true) (l : List α) :
    l.Pairwise (fun a b => le a b = true) := by
  induction l with
  | nil => exact .nil
  | cons a t ih => exact .cons (fun b _ => h a b) ih

theorem foldl_add_cost (l : List CostComparison.CModel) (a : ℚ) :
    l.foldl (fun sum m => sum + CostComparison.getCostValue m) a =
      a + (l.map CostComparison.getCostValue).sum := by
  induction l generalizing a with
  | nil => simp
  | cons x t ih => simp [ih, add_assoc]

/-! ### The claims -/

/-- C1: for every list of models and every search query, `handleSearch`
sets `filteredModels` to exactly those models whose name (falling back
to the id), id, description (empty string when absent), or `owned_by`,
each lowercased, contains the lowercased and trimmed query as a
substring; when the trimmed query is empty, `filteredModels` becomes
the full `models` list. -/
theorem C1_handleSearch_filters_by_substring
    (st : ModelBrowser.BrowserState) (query : String) :
    (jsTrim (jsToLower query) = "" →
      (ModelBrowser.handleSearch st query).filteredModels = st.models) ∧
    (jsTrim (jsToLower query) ≠ "" →
      ∀ m : ModelBrowser.Model,
        m ∈ (ModelBrowser.handleSearch st query).filteredModels ↔
          m ∈ st.models ∧
          (strIncludes (jsToLower (jsOr m.name m.id)) (jsTrim (jsToLower query)) = true ∨
           strIncludes (jsToLower m.id) (jsTrim (jsToLower query)) = true ∨
           strIncludes (jsToLower (jsOr m.description "")) (jsTrim (jsToLower query)) = true ∨
           strIncludes (jsToLower m.owned_by) (jsTrim (jsToLower query)) = true)) := by
  constructor
  · intro h
    simp [ModelBrowser.handleSearch, renderModels_filteredModels, h]
  · intro h m
    simp [ModelBrowser.handleSearch, renderModels_filteredModels, h,
      List.mem_filter, Bool.or_eq_true, and_assoc, or_assoc]

/-- Sample model: a ChatGPT-family record. -/
def mGpt : ModelBrowser.Model :=
  { id := "chatgpt-4o-latest"
    name := some "ChatGPT 4o"
    description := some "flagship chat model"
    owned_by := "openai"
    created := 1715367049
    context_length := some 128000
    pricing := some { prompt := some 5, completion := some 15, unit := none }
    cost_estimate_cheap := some false }

/-- Sample model: a Claude-family record with absent optional fields. -/
def mClaude : ModelBrowser.Model :=
  { id := "claude-3-5-sonnet"
    name := none
    description := none
    owned_by := "anthropic"
    created := 1718841600
    context_length := none
    pricing := none
    cost_estimate_cheap := none }

/-- Sample browser state holding the two sample models. -/
def stSample : ModelBrowser.BrowserState :=
  { models := [mGpt, mClaude]
    filteredModels := [mGpt, mClaude]
    loadingVisible := false
    errorVisible := false
    errorMessage := ""
    emptyVisible := false }

/-- Witness for C1 at the query `" GPT "`: the trimmed lowercased term is
`"gpt"`, and the ChatGPT record matches by its id. -/
theorem C1_witness :
    mGpt ∈ (ModelBrowser.handleSearch stSample " GPT ").filteredModels := by
  have h := (C1_handleSearch_filters_by_substring stSample " GPT ").2 (by decide) mGpt
  exact h.mpr (by refine ⟨by decide, Or.inr (Or.inl ?_)⟩; decide)

/-- C2: for every list of models and every filter type, `handleFilter`
sets `filteredModels` to the full `models` list when the filter type is
`"all"`, and otherwise to exactly those models whose type, lowercased,
equals the filter type, where a model's type is `"ChatGPT"` if its id
contains `"chatgpt"` or `"gpt"`, else `"Claude"` / `"Gemini"` /
`"DeepSeek"` by the corresponding substring check, else `"Other"`, in
that order. -/
theorem C2_handleFilter_filters_by_type
    (st : ModelBrowser.BrowserState) (filterType : String) :
    (filterType = "all" →
      (ModelBrowser.handleFilter st filterType).filteredModels = st.models) ∧
    (filterType ≠ "all" →
      ∀ m : ModelBrowser.Model,
        m ∈ (ModelBrowser.handleFilter st filterType).filteredModels ↔
          m ∈ st.models ∧
          jsToLower
            (if strIncludes m.id "chatgpt" || strIncludes m.id "gpt" then "ChatGPT"
             else if strIncludes m.id "claude" then "Claude"
             else if strIncludes m.id "gemini" then "Gemini"
             else if strIncludes m.id "deepseek" then "DeepSeek"
             else "Other") = filterType) := by
  constructor
  · intro h
    simp [ModelBrowser.handleFilter, renderModels_filteredModels, h]
  · intro h m
    simp [ModelBrowser.handleFilter, ModelBrowser.getModelType,
      renderModels_filteredModels, h, List.mem_filter]

/-- Witness for C2 at the filter type `"claude"`: the Claude record is
kept, and its membership is equivalent to its computed type lowercasing
to `"claude"`. -/
theorem C2_witness :
    mClaude ∈ (ModelBrowser.handleFilter stSample "claude").filteredModels := by
  have h := (C2_handleFilter_filters_by_type stSample "claude").2 (by decide) mClaude
  exact h.mpr (by constructor <;> decide)

/-- C3: `applySorting` with sort type `"cost"` orders `filteredModels`
in non-decreasing and with `"cost-desc"` in non-increasing order of
cost value, where the cost value is `0` when pricing is absent or
`completion` is absent or `0` and the numeric value of `completion`
otherwise; `"provider"` and `"name"` order by lexicographic comparison
of those fields; any other sort type leaves the list unchanged.  Each
sorted list is a permutation of the original. -/
theorem C3_applySorting_orders (st : CostComparison.CompareState) :
    ((CostComparison.applySorting st "cost").filteredModels.Pairwise
        (fun a b => CostComparison.getCostValue a ≤ CostComparison.getCostValue b) ∧
      (CostComparison.applySorting st "cost").filteredModels.Perm st.filteredModels) ∧
    ((CostComparison.applySorting st "cost-desc").filteredModels.Pairwise
        (fun a b => CostComparison.getCostValue b ≤ CostComparison.getCostValue a) ∧
      (CostComparison.applySorting st "cost-desc").filteredModels.Perm st.filteredModels) ∧
    ((CostComparison.applySorting st "provider").filteredModels.Pairwise
        (fun a b => localeCompare a.provider b.provider ≤ 0) ∧
      (CostComparison.applySorting st "provider").filteredModels.Perm st.filteredModels) ∧
    ((CostComparison.applySorting st "name").filteredModels.Pairwise
        (fun a b => localeCompare a.name b.name ≤ 0) ∧
      (CostComparison.applySorting st "name").filteredModels.Perm st.filteredModels) ∧
    (∀ m : CostComparison.CModel,
      (m.pricing = none → CostComparison.getCostValue m = 0) ∧
      (∀ p, m.pricing = some p → p.completion = none →
        CostComparison.getCostValue m = 0) ∧
      (∀ p c, m.pricing = some p → p.completion = some c →
        CostComparison.getCostValue m = c)) ∧
    (∀ sortType, sortType ≠ "cost" → sortType ≠ "cost-desc" →
      sortType ≠ "provider" → sortType ≠ "name" →
      (CostComparison.applySorting st sortType).filteredModels = st.filteredModels) := by
  have hcost : ∀ a b : CostComparison.CModel,
      (decide (CostComparison.sortCmp "cost" a b ≤ 0) = true) ↔
        CostComparison.getCostValue a ≤ CostComparison.getCostValue b := by
    intro a b; simp [CostComparison.sortCmp, sub_nonpos]
  have hcostD : ∀ a b : CostComparison.CModel,
      (decide (CostComparison.sortCmp "cost-desc" a b ≤ 0) = true) ↔
        CostComparison.getCostValue b ≤ CostComparison.getCostValue a := by
    intro a b; simp [CostComparison.sortCmp, sub_nonpos]
  have hprov : ∀ a b : CostComparison.CModel,
      (decide (CostComparison.sortCmp "provider" a b ≤ 0) = true) ↔
        a.provider.data ≤ b.provider.data := by
    intro a b
    simp [CostComparison.sortCmp, Int.cast_nonpos, localeCompare_nonpos_iff]
  have hname : ∀ a b : CostComparison.CModel,
      (decide (CostComparison.sortCmp "name" a b ≤ 0) = true) ↔
        a.name.data ≤ b.name.data := by
    intro a b
    simp [CostComparison.sortCmp, Int.cast_nonpos, localeCompare_nonpos_iff]
  refine ⟨⟨?_, ?_⟩, ⟨?_, ?_⟩, ⟨?_, ?_⟩, ⟨?_, ?_⟩, ?_, ?_⟩
  · have h := List.sorted_mergeSort
      (fun a b c hab hbc =>
        (hcost a c).2 (le_trans ((hcost a b).1 hab) ((hcost b c).1 hbc)))
      (fun a b => by
        simp only [Bool.or_eq_true, hcost]
        exact le_total _ _)
      st.filteredModels
    exact h.imp (fun hab => (hcost _ _).1 hab)
  · exact List.mergeSort_perm _ _
  · have h := List.sorted_mergeSort
      (fun a b c hab hbc =>
        (hcostD a c).2 (le_trans ((hcostD b c).1 hbc) ((hcostD a b).1 hab)))
      (fun a b => by
        simp only [Bool.or_eq_true, hcostD]
        exact (le_total _ _).symm)
      st.filteredModels
    exact h.imp (fun hab => (hcostD _ _).1 hab)
  · exact List.mergeSort_perm _ _
  · have h := List.sorted_mergeSort
      (fun a b c hab hbc =>
        (hprov a c).2 (le_trans ((hprov a b).1 hab) ((hprov b c).1 hbc)))
      (fun a b => by
        simp only [Bool.or_eq_true, hprov]
        exact le_total _ _)
      st.filteredModels
    exact h.imp (fun hab => (localeCompare_nonpos_iff _ _).2 ((hprov _ _).1 hab))
  · exact List.mergeSort_perm _ _
  · have h := List.sorted_mergeSort
      (fun a b c hab hbc =>
        (hname a c).2 (le_trans ((hname a b).1 hab) ((hname b c).1 hbc)))
      (fun a b => by
        simp only [Bool.or_eq_true, hname]
        exact le_total _ _)
      st.filteredModels
    exact h.imp (fun hab => (localeCompare_nonpos_iff _ _).2 ((hname _ _).1 hab))
  · exact List.mergeSort_perm _ _
  · intro m
    refine ⟨?_, ?_, ?_⟩
    · intro h; simp [CostComparison.getCostValue, h]
    · intro p hp hc; simp [CostComparison.getCostValue, hp, hc]
    · intro p c hp hc
      rcases eq_or_ne c 0 with h | h <;>
        simp [CostComparison.getCostValue, hp, hc, h]
  · intro sortType h1 h2 h3 h4
    have hall : ∀ a b : CostComparison.CModel,
        decide (CostComparison.sortCmp sortType a b ≤ 0) = true := by
      intro a b
      simp [CostComparison.sortCmp, h1, h2, h3, h4]
    exact List.mergeSort_of_sorted (pairwise_of_all_true _ hall st.filteredModels)

/-- Sample comparison model with a paid completion price. -/
def cmPaid : CostComparison.CModel :=
  { id := "deepseek-chat"
    name := "DeepSeek Chat"
    provider := "nanogpt"
    pricing := some { completion := some 1 }
    context_length := some 64000 }

/-- Sample comparison model with no pricing object (a free model). -/
def cmFree : CostComparison.CModel :=
  { id := "free-model"
    name := "Free Model"
    provider := "openrouter"
    pricing := none
    context_length := none }

/-- Sample comparison state holding the two sample comparison models. -/
def cstSample : CostComparison.CompareState :=
  { models := [cmPaid, cmFree]
    filteredModels := [cmPaid, cmFree]
    currentSort := "cost"
    currentProviderFilter := "all"
    loadingVisible := false
    errorVisible := false
    errorMessage := ""
    emptyVisible := false
    leaderboardVisible := false
    statCount := 0
    statAvg := 0 }

/-- Witness for C3: an unknown sort type leaves the concrete sample list
unchanged, and the cost value of the free sample model is `0`. -/
theorem C3_witness :
    (CostComparison.applySorting cstSample "random").filteredModels =
      cstSample.filteredModels ∧
    CostComparison.getCostValue cmFree = 0 := by
  refine ⟨(C3_applySorting_orders cstSample).2.2.2.2.2 "random"
    (by decide) (by decide) (by decide) (by decide), ?_⟩
  exact ((C3_applySorting_orders cstSample).2.2.2.2.1 cmFree).1 (by decide)

/-- C4: when the fetch of `loadModels` or `loadComparisonData` fails —
a network error or a body whose `success` field is false — the
operation displays an error message, leaves `models` and
`filteredModels` unchanged, and issues exactly its one request (no
retry). -/
theorem C4_fetch_failure_shows_error
    (st : ModelBrowser.BrowserState) (cst : CostComparison.CompareState)
    (r : ModelBrowser.FetchResult ModelBrowser.ModelsResponse)
    (rc : ModelBrowser.FetchResult CostComparison.CompareResponse)
    (hr : r = .networkError ∨ ∃ body, r = .ok body ∧ body.success = false)
    (hrc : rc = .networkError ∨ ∃ body, rc = .ok body ∧ body.success = false) :
    ((ModelBrowser.loadModels st r).1.models = st.models ∧
     (ModelBrowser.loadModels st r).1.filteredModels = st.filteredModels ∧
     (ModelBrowser.loadModels st r).1.errorVisible = true ∧
     (ModelBrowser.loadModels st r).2.length = 1) ∧
    ((CostComparison.loadComparisonData cst rc).1.models = cst.models ∧
     (CostComparison.loadComparisonData cst rc).1.filteredModels = cst.filteredModels ∧
     (CostComparison.loadComparisonData cst rc).1.errorVisible = true ∧
     (CostComparison.loadComparisonData cst rc).2.length = 1) := by
  constructor
  · rcases hr with h | ⟨body, h, hs⟩
    · subst h
      simp [ModelBrowser.loadModels, ModelBrowser.showLoading,
        ModelBrowser.showError, ModelBrowser.hideLoading]
    · subst h
      simp [ModelBrowser.loadModels, ModelBrowser.showLoading,
        ModelBrowser.showError, ModelBrowser.hideLoading, hs]
  · rcases hrc with h | ⟨body, h, hs⟩
    · subst h
      simp [CostComparison.loadComparisonData, CostComparison.cShowLoading,
        CostComparison.cShowError, CostComparison.cHideLoading]
    · subst h
      simp [CostComparison.loadComparisonData, CostComparison.cShowLoading,
        CostComparison.cShowError, CostComparison.cHideLoading, hs]

/-- Witness for C4: a network error on both pages leaves the sample
states' model lists untouched and raises the error banner. -/
theorem C4_witness :
    (ModelBrowser.loadModels stSample .networkError).1.models = stSample.models ∧
    (CostComparison.loadComparisonData cstSample .networkError).1.errorVisible = true := by
  have h := C4_fetch_failure_shows_error stSample cstSample
    .networkError .networkError (Or.inl rfl) (Or.inl rfl)
  exact ⟨h.1.1, h.2.2.2.1⟩

/-- C5: every network request of any operation of the two classes is a
GET to `/api/models`, `/api/models/` followed by the clicked model's
id, or `/api/compare/models`. -/
theorem C5_requests_are_get_to_known_endpoints
    (op : Op) (r : ModelBrowser.Request) (hr : r ∈ opRequests op) :
    allowedRequest r := by
  cases op <;>
    simp only [opRequests, ModelBrowser.showModelDetailsRequests,
      List.mem_singleton, List.not_mem_nil] at hr
  all_goals subst hr
  all_goals first
    | exact ⟨rfl, Or.inl rfl⟩
    | exact ⟨rfl, Or.inr (Or.inr rfl)⟩
    | exact ⟨rfl, Or.inr (Or.inl ⟨_, rfl⟩)⟩

/-- Witness for C5: the single request of `loadModels` is allowed. -/
theorem C5_witness : allowedRequest { method := "GET", path := "/api/models" } :=
  C5_requests_are_get_to_known_endpoints Op.mbLoadModels _ (by simp [opRequests])

/-- C6: local storage is touched only at the two preference keys:
`saveApiKey` writes `nanogpt_api_key` exactly when the trimmed input is
non-empty and differs from the mask, `clearApiKey` removes only
`nanogpt_api_key`, `toggleAutoRefresh` writes only `auto_refresh`, and
the two reading operations depend only on those two keys. -/
theorem C6_localStorage_only_two_keys
    (s s2 : ModelBrowser.Store) (inputValue oldInput : String) (enabled : Bool) :
    (∀ k, k ≠ "nanogpt_api_key" →
      (ModelBrowser.saveApiKey s inputValue).1 k = s k) ∧
    (jsTrim inputValue = "" ∨ jsTrim inputValue = ModelBrowser.maskString →
      (ModelBrowser.saveApiKey s inputValue).1 = s) ∧
    (jsTrim inputValue ≠ "" → jsTrim inputValue ≠ ModelBrowser.maskString →
      (ModelBrowser.saveApiKey s inputValue).1 =
        ModelBrowser.setItem s "nanogpt_api_key" (jsTrim inputValue)) ∧
    ((ModelBrowser.clearApiKey s).1 "nanogpt_api_key" = none) ∧
    (∀ k, k ≠ "nanogpt_api_key" → (ModelBrowser.clearApiKey s).1 k = s k) ∧
    (∀ k, k ≠ "auto_refresh" → ModelBrowser.toggleAutoRefresh s enabled k = s k) ∧
    (ModelBrowser.getItem s "nanogpt_api_key" = ModelBrowser.getItem s2 "nanogpt_api_key" →
     ModelBrowser.getItem s "auto_refresh" = ModelBrowser.getItem s2 "auto_refresh" →
     ModelBrowser.loadCurrentSettings s oldInput = ModelBrowser.loadCurrentSettings s2 oldInput ∧
     ModelBrowser.initializeSettings s = ModelBrowser.initializeSettings s2) := by
  refine ⟨?_, ?_, ?_, ?_, ?_, ?_, ?_⟩
  · intro k hk
    simp only [ModelBrowser.saveApiKey]
    split
    · simp [ModelBrowser.setItem, hk]
    · rfl
  · intro h
    simp only [ModelBrowser.saveApiKey]
    rcases h with h | h <;> simp [h]
  · intro h1 h2
    simp [ModelBrowser.saveApiKey, h1, h2]
  · simp [ModelBrowser.clearApiKey, ModelBrowser.removeItem]
  · intro k hk
    simp [ModelBrowser.clearApiKey, ModelBrowser.removeItem, hk]
  · intro k hk
    simp [ModelBrowser.toggleAutoRefresh, ModelBrowser.setItem, hk]
  · intro h1 h2
    unfold ModelBrowser.loadCurrentSettings ModelBrowser.initializeSettings
    rw [h1, h2]
    exact ⟨rfl, rfl⟩

/-- Witness for C6: saving the key `"sk-test"` over an empty store
writes it under `nanogpt_api_key`, and the other-key reads are
untouched. -/
theorem C6_witness :
    (ModelBrowser.saveApiKey (fun _ => none) "sk-test").1 =
      ModelBrowser.setItem (fun _ => none) "nanogpt_api_key" (jsTrim "sk-test") ∧
    (ModelBrowser.saveApiKey (fun _ => none) "sk-test").1 "other_key" = none := by
  have h := C6_localStorage_only_two_keys (fun _ => none) (fun _ => none) "sk-test" "" true
  exact ⟨h.2.2.1 (by decide) (by decide), h.1 "other_key" (by decide)⟩

/-- C7: the model card displays the record's name (falling back to the
id), creation date, owner, context length (`N/A` when absent) and
pricing, and `formatPricing` yields `N/A` for absent pricing and
otherwise the two prices joined by `/` (each defaulting to `"0"` when
absent) with the `per MTok` suffix for the default unit
`per_million_tokens` and the unit string otherwise. -/
theorem C7_modelCard_displays_fields
    (m : ModelBrowser.Model) (p : ModelBrowser.Pricing) :
    ((ModelBrowser.createModelCard m).displayName = jsOr m.name m.id ∧
     (ModelBrowser.createModelCard m).createdDate =
       ModelBrowser.dateToLocale (m.created * 1000) ∧
     (ModelBrowser.createModelCard m).provider = m.owned_by ∧
     (m.context_length = none →
       (ModelBrowser.createModelCard m).contextValue = "N/A tokens") ∧
     (ModelBrowser.createModelCard m).pricingValue =
       (if m.cost_estimate_cheap.getD false then "💰" else "💎") ++ " " ++
         ModelBrowser.formatPricing m.pricing) ∧
    ModelBrowser.formatPricing none = "N/A" ∧
    (∃ promptStr completionStr,
      ModelBrowser.formatPricing (some p) =
        promptStr ++ "/" ++ completionStr ++
          (if jsOr p.unit "per_million_tokens" = "per_million_tokens"
           then " per MTok"
           else " " ++ jsOr p.unit "per_million_tokens") ∧
      (p.prompt = none → promptStr = "0") ∧
      (p.completion = none → completionStr = "0")) := by
  refine ⟨⟨rfl, rfl, rfl, ?_, rfl⟩, rfl, ?_⟩
  · intro h
    simp [ModelBrowser.createModelCard, h]
  · refine ⟨(match p.prompt with
        | none => "0"
        | some q => if q = 0 then "0" else "$" ++ ModelBrowser.numToLocale q),
      (match p.completion with
        | none => "0"
        | some q => if q = 0 then "0" else "$" ++ ModelBrowser.numToLocale q),
      ?_, ?_, ?_⟩
    · by_cases h : jsOr p.unit "per_million_tokens" = "per_million_tokens" <;>
        simp [ModelBrowser.formatPricing, h, String.append_assoc]
    · intro h; simp [h]
    · intro h; simp [h]

/-- Witness for C7 at the sample records: the card of the Claude record
shows the id in place of the missing name and `N/A` for the missing
context length, and a pricing object with both prices missing renders
as `0/0 per MTok`. -/
theorem C7_witness :
    (ModelBrowser.createModelCard mClaude).displayName = "claude-3-5-sonnet" ∧
    (ModelBrowser.createModelCard mClaude).contextValue = "N/A tokens" := by
  have h := C7_modelCard_displays_fields mClaude
    { prompt := none, completion := none, unit := none }
  exact ⟨by rw [h.1.1]; decide, h.1.2.2.2.1 (by decide)⟩

/-- For a run of input events whose consecutive gaps are all below
300 ms, only the timer of the last event survives, so the fired values
are exactly the last event's value. -/
theorem debounceFired_of_rapid : ∀ (events : List InputEvent),
    events.Chain' (fun a b => b.time < a.time + 300) →
    debounceFired events = (events.getLast?.map InputEvent.value).toList
  | [], _ => rfl
  | [_], _ => rfl
  | e :: e2 :: rest, h => by
    have h1 : e2.time < e.time + 300 := (List.chain'_cons.mp h).1
    have h2 := (List.chain'_cons.mp h).2
    simp [debounceFired, not_le.mpr h1,
      debounceFired_of_rapid (e2 :: rest) h2, List.getLast?_cons_cons]

/-- C8: search input events are debounced — for every sequence of input
events less than 300 ms apart, `handleSearch` is invoked at most once,
and then with the value of the last event. -/
theorem C8_search_input_debounced (events : List InputEvent)
    (h : events.Chain' (fun a b => b.time < a.time + 300)) :
    debounceFired events = (events.getLast?.map InputEvent.value).toList ∧
    (debounceFired events).length ≤ 1 := by
  refine ⟨debounceFired_of_rapid events h, ?_⟩
  rw [debounceFired_of_rapid events h]
  cases events.getLast? <;> simp

/-- Witness for C8: three keystrokes 100 and 150 ms apart trigger a
single search, for the final value. -/
theorem C8_witness :
    debounceFired [⟨0, "g"⟩, ⟨100, "gp"⟩, ⟨250, "gpt"⟩] = ["gpt"] := by
  have h := C8_search_input_debounced [⟨0, "g"⟩, ⟨100, "gp"⟩, ⟨250, "gpt"⟩]
    (by simp [List.chain'_cons])
  simpa using h.1

/-- C9: search, filter and sort never mutate the master `models` list:
after `handleSearch`, `handleFilter`, `applyFilters`, `applySorting` or
`handleSort` the `models` field holds exactly the elements it held
before, in the same order. -/
theorem C9_master_list_never_mutated
    (st : ModelBrowser.BrowserState) (query filterType : String)
    (cst : CostComparison.CompareState) (sortType : String) :
    (ModelBrowser.handleSearch st query).models = st.models ∧
    (ModelBrowser.handleFilter st filterType).models = st.models ∧
    (CostComparison.applyFilters cst).models = cst.models ∧
    (CostComparison.applySorting cst sortType).models = cst.models ∧
    (CostComparison.handleSort cst sortType).models = cst.models := by
  refine ⟨?_, ?_, ?_, rfl, ?_⟩
  · simp only [ModelBrowser.handleSearch]
    rw [renderModels_models]
    split <;> rfl
  · simp only [ModelBrowser.handleFilter]
    rw [renderModels_models]
    split <;> rfl
  · simp only [CostComparison.applyFilters]
    rw [renderLeaderboard_models, applySorting_models, selectByProvider_models]
  · simp only [CostComparison.handleSort]
    rw [renderLeaderboard_models, applySorting_models]

/-- C10: `updateStats` computes over the full `models` list, ignoring
the provider filter and the current `filteredModels`: the count is the
length of `models`, and the average is the sum of the cost values
divided by that length when the list is non-empty and `0` otherwise
(the division is guarded). -/
theorem C10_updateStats_over_full_list (st : CostComparison.CompareState) :
    (CostComparison.updateStats st).statCount = st.models.length ∧
    (st.models ≠ [] →
      (CostComparison.updateStats st).statAvg =
        (st.models.map CostComparison.getCostValue).sum / (st.models.length : ℚ)) ∧
    (st.models = [] → (CostComparison.updateStats st).statAvg = 0) ∧
    (∀ fm fltr srt,
      (CostComparison.updateStats
          { st with filteredModels := fm, currentProviderFilter := fltr,
                    currentSort := srt }).statCount =
        (CostComparison.updateStats st).statCount ∧
      (CostComparison.updateStats
          { st with filteredModels := fm, currentProviderFilter := fltr,
                    currentSort := srt }).statAvg =
        (CostComparison.updateStats st).statAvg) := by
  refine ⟨rfl, ?_, ?_, ?_⟩
  · intro h
    have hl : 0 < st.models.length := List.length_pos.mpr h
    simp [CostComparison.updateStats, foldl_add_cost, hl]
  · intro h
    simp [CostComparison.updateStats, h]
  · intro fm fltr srt
    exact ⟨rfl, rfl⟩

/-- Witness for C10: over the sample comparison state the count is `2`
and the average cost is `(1 + 0) / 2`. -/
theorem C10_witness :
    (CostComparison.updateStats cstSample).statCount = 2 ∧
    (CostComparison.updateStats cstSample).statAvg = 1 / 2 := by
  have h := C10_updateStats_over_full_list cstSample
  refine ⟨h.1.trans (by decide), ?_⟩
  rw [h.2.1 (by decide)]
  norm_num [cstSample, cmPaid, cmFree, CostComparison.getCostValue]
